import Mathlib

/-!
Verification of the reconciliation decision engine of the
kubernetes-secret-generator controller (`src/main.go`).

The controller watches secret records. `SecretAdded` inspects a record's
control keys (the three constants below), decides whether a new random token
is needed, and if so builds an updated snapshot and submits it to the store.
`generateSecret` draws each character of the token from a 62-symbol alphabet
using a secure random source.

Shallow embedding choices:
* a record's key-value metadata and data mappings become association lists
  (`StrMap`) with first-match lookup, in-place replacing insert, and
  key-removing erase — matching Go map semantics on maps with unique keys;
* the secure random source (`crypto/rand.Int(reader, 62)`) becomes an
  explicit list of natural draws (`Entropy`); one call consumes one draw and
  returns it reduced modulo the alphabet size (rand.Int's contract is a
  value in `[0, 62)`), and an exhausted list models an entropy failure;
* the store write becomes the `writeAttempt` outcome, with `processEvent`
  folding a write success/failure flag into the stored record.
-/

namespace KSGen

/-- Go map `map[string]string` (and `map[string][]byte`, with byte strings
rendered as `String`) as an association list with unique-key intent. -/
abbrev StrMap := List (String × String)

/-- First-match lookup, `m[k]` of a Go map. -/
def lookupA : StrMap → String → Option String
  | [], _ => none
  | (k, v) :: rest, key => if k = key then some v else lookupA rest key

/-- Go map assignment `m[k] = v`: replace the value in place if the key is
present, append otherwise. -/
def insertA : StrMap → String → String → StrMap
  | [], key, val => [(key, val)]
  | (k, v) :: rest, key, val =>
    if k = key then (key, val) :: rest else (k, v) :: insertA rest key val

/-- Go `delete(m, k)`: remove every pair with the given key. -/
def eraseA (m : StrMap) (key : String) : StrMap :=
  m.filter fun p => p.1 != key

/-- Source constant SecretGenerateAnnotation (`main.go:39`). -/
def SecretGenerateAnno : String := "secret-generator.v1.mittwald.de/autogenerate"

/-- Source constant SecretGeneratedAtAnnotation (`main.go:40`). -/
def SecretGeneratedAtAnno : String := "secret-generator.v1.mittwald.de/autogenerate-generated-at"

/-- Source constant SecretRegenerateAnnotation (`main.go:41`). -/
def SecretRegenerateAnno : String := "secret-generator.v1.mittwald.de/regenerate"

/-- Source variable `runes` (`main.go:44`): the fixed 62-symbol alphabet. -/
def runes : List Char :=
  "abcdefghijklmnopqrstuvwxyzABCDEFGHIJKLMNOPQRSTUVWXYZ0123456789".toList

/-- A record snapshot: identity, version token, control metadata (`anns`,
the record's string-keyed metadata mapping) and payload (`data`). -/
structure Secret where
  name : String
  ns : String
  resourceVersion : String
  anns : StrMap
  data : StrMap
deriving DecidableEq, Repr

/-- Entropy stream standing in for `crypto/rand.Reader`: successive draws. -/
abbrev Entropy := List Nat

/-- Positivity of the alphabet length, used to bound every index. -/
theorem runes_length_pos : 0 < runes.length := by decide

/-- One draw mapped into the alphabet: `runes[n]` for the value `n < 62`
returned by `rand.Int(rand.Reader, big.NewInt(62))` (`main.go:171-175`);
the modulus renders rand.Int's contract that the value is below the bound. -/
def pickRune (n : Nat) : Char :=
  runes.get ⟨n % runes.length, Nat.mod_lt n runes_length_pos⟩

/-- Loop body of `generateSecret` (`main.go:169-176`): one draw per output
character, aborting on the first entropy failure. -/
def generateChars : Nat → Entropy → Except String (List Char)
  | 0, _ => Except.ok []
  | _ + 1, [] => Except.error "entropy source exhausted"
  | len + 1, n :: rest =>
    match generateChars len rest with
    | Except.error msg => Except.error msg
    | Except.ok cs => Except.ok (pickRune n :: cs)

/-- Source function `generateSecret` (`main.go:168-178`). -/
def generateSecret (length : Nat) (e : Entropy) : Except String String :=
  match generateChars length e with
  | Except.error msg => Except.error msg
  | Except.ok b => Except.ok (String.mk b)

/-- Modelled from the spec: `util.CopyObjToSecret` lives in the repository's
`util` package, which is not under `src/`; per the spec the updated snapshot
is built "starting from the received one (preserving its version token and
all unrelated fields)", with no failure mode of its own, i.e. a deep copy of
the immutable snapshot value. -/
def copyObjToSecret (s : Secret) : Secret := s

/-- Conditional delete of the regenerate marker (`main.go:152-155`): the key
is removed only after the presence check, which is how the Go code guards
`delete`. -/
def condErase (m : StrMap) (key : String) : StrMap :=
  if (lookupA m key).isSome then eraseA m key else m

/-- The updated snapshot built at `main.go:152-158`: drop the regenerate
marker if present, stamp the generated-at key with the current time, and
overwrite the data entry named by the generate-target value. -/
def updatedSecret (now val pw : String) (s : Secret) : Secret :=
  { s with
    anns := insertA (condErase s.anns SecretRegenerateAnno) SecretGeneratedAtAnno now
    data := insertA s.data val pw }

/-- Outcome of one reconciliation pass: no store interaction, generation
failure before any write, or a snapshot submitted to the store. -/
inductive ReconcileOutcome where
  | noop : ReconcileOutcome
  | genFailed : ReconcileOutcome
  | writeAttempt : Secret → ReconcileOutcome
deriving DecidableEq, Repr

/-- Source handler `SecretAdded` (`main.go:114-166`), with the configured
secret length, the current time and the entropy stream made explicit.
The decision structure is verbatim: absent generate-target key is a no-op;
`regenerateNeeded` is the disjunction of an absent generated-at key and a
present regenerate key; a `false` decision is a no-op; otherwise the record
is copied, a token is generated (failure aborts with no write), and the
updated snapshot is submitted. -/
def SecretAdded (secretLength : Nat) (now : String) (e : Entropy) (secret : Secret) :
    ReconcileOutcome :=
  match lookupA secret.anns SecretGenerateAnno with
  | none => ReconcileOutcome.noop
  | some val =>
    if (lookupA secret.anns SecretGeneratedAtAnno).isNone
        || (lookupA secret.anns SecretRegenerateAnno).isSome then
      match generateSecret secretLength e with
      | Except.error _ => ReconcileOutcome.genFailed
      | Except.ok newPassword =>
        ReconcileOutcome.writeAttempt
          (updatedSecret now val newPassword (copyObjToSecret secret))
    else ReconcileOutcome.noop

/-- The snapshot a reconciliation pass would write, when it writes one. -/
def outSecret : ReconcileOutcome → Option Secret
  | ReconcileOutcome.writeAttempt s => some s
  | _ => none

/-- Effect of one delivered event on the stored record: a submitted snapshot
replaces the stored one only when the conditional write succeeds
(`main.go:162-165`); every other path leaves the store untouched. -/
def processEvent (secretLength : Nat) (now : String) (e : Entropy) (writeOk : Bool)
    (stored observed : Secret) : Secret :=
  match SecretAdded secretLength now e observed with
  | ReconcileOutcome.writeAttempt s => if writeOk then s else stored
  | _ => stored

/-! Association-list lemmas. -/

/-- Looking up the key just inserted yields the inserted value. -/
theorem lookupA_insertA_self (m : StrMap) (key val : String) :
    lookupA (insertA m key val) key = some val := by
  induction m with
  | nil => simp [insertA, lookupA]
  | cons p rest ih =>
    obtain ⟨a, b⟩ := p
    by_cases h : a = key
    · simp [insertA, h, lookupA]
    · simp [insertA, h, lookupA, ih]

/-- Insertion leaves every other key's lookup unchanged. -/
theorem lookupA_insertA_ne (m : StrMap) (key val k : String) (h : k ≠ key) :
    lookupA (insertA m key val) k = lookupA m k := by
  induction m with
  | nil => simp [insertA, lookupA, Ne.symm h]
  | cons p rest ih =>
    obtain ⟨a, b⟩ := p
    by_cases ha : a = key
    · subst ha
      simp [insertA, lookupA, Ne.symm h]
    · simp only [insertA, if_neg ha, lookupA]
      by_cases hk : a = k
      · simp [hk]
      · simp [hk, ih]

/-- Looking up an erased key fails. -/
theorem lookupA_eraseA_self (m : StrMap) (key : String) :
    lookupA (eraseA m key) key = none := by
  induction m with
  | nil => simp [eraseA, lookupA]
  | cons p rest ih =>
    obtain ⟨a, b⟩ := p
    by_cases h : a = key
    · simpa [eraseA, List.filter_cons, h] using ih
    · simp only [eraseA, List.filter_cons] at ih ⊢
      simp [bne_iff_ne, h, lookupA, ih]

/-- Erasure leaves every other key's lookup unchanged. -/
theorem lookupA_eraseA_ne (m : StrMap) (key k : String) (h : k ≠ key) :
    lookupA (eraseA m key) k = lookupA m k := by
  induction m with
  | nil => simp [eraseA, lookupA]
  | cons p rest ih =>
    obtain ⟨a, b⟩ := p
    by_cases ha : a = key
    · subst ha
      simpa [eraseA, List.filter_cons, lookupA, Ne.symm h] using ih
    · by_cases hk : a = k
      · simp [eraseA, List.filter_cons, bne_iff_ne, ha, lookupA, hk, h]
      · simpa [eraseA, List.filter_cons, bne_iff_ne, ha, lookupA, hk] using ih

/-- The conditional erase also removes the key whenever it was present. -/
theorem lookupA_condErase_self (m : StrMap) (key : String) :
    lookupA (condErase m key) key = none := by
  by_cases h : (lookupA m key).isSome = true
  · simp [condErase, h, lookupA_eraseA_self]
  · simpa [condErase, h] using Option.not_isSome_iff_eq_none.mp h

/-- The conditional erase leaves every other key's lookup unchanged. -/
theorem lookupA_condErase_ne (m : StrMap) (key k : String) (h : k ≠ key) :
    lookupA (condErase m key) k = lookupA m k := by
  by_cases hp : (lookupA m key).isSome = true
  · simp [condErase, hp, lookupA_eraseA_ne m key k h]
  · simp [condErase, hp]

/-! Distinctness of the three control keys. -/

theorem gen_ne_genAt : SecretGenerateAnno ≠ SecretGeneratedAtAnno := by decide

theorem gen_ne_regen : SecretGenerateAnno ≠ SecretRegenerateAnno := by decide

theorem genAt_ne_regen : SecretGeneratedAtAnno ≠ SecretRegenerateAnno := by decide

/-! Token generator lemmas. -/

/-- Every picked character belongs to the alphabet. -/
theorem pickRune_mem (n : Nat) : pickRune n ∈ runes := by
  unfold pickRune
  exact List.get_mem runes _ _

/-- A successful character run has the requested length and stays inside the
alphabet. -/
theorem generateChars_ok_inv :
    ∀ (len : Nat) (e : Entropy) (cs : List Char),
      generateChars len e = Except.ok cs →
      cs.length = len ∧ cs.all (fun c => decide (c ∈ runes)) = true := by
  intro len
  induction len with
  | zero =>
    intro e cs h
    simp only [generateChars] at h
    cases h
    simp
  | succ k ih =>
    intro e cs h
    cases e with
    | nil => simp [generateChars] at h
    | cons n rest =>
      simp only [generateChars] at h
      cases hrec : generateChars k rest with
      | error msg => rw [hrec] at h; cases h
      | ok cs0 =>
        rw [hrec] at h
        cases h
        obtain ⟨hlen, hall⟩ := ih rest cs0 hrec
        refine ⟨by simp [hlen], ?_⟩
        simp only [List.all_cons, hall, Bool.and_true]
        simpa using pickRune_mem n

/-- A successful token has the requested length and stays inside the
alphabet. -/
theorem generateSecret_ok_inv (len : Nat) (e : Entropy) (pw : String)
    (h : generateSecret len e = Except.ok pw) :
    pw.length = len ∧ pw.data.all (fun c => decide (c ∈ runes)) = true := by
  unfold generateSecret at h
  cases hc : generateChars len e with
  | error msg => rw [hc] at h; cases h
  | ok cs =>
    rw [hc] at h
    cases h
    obtain ⟨hlen, hall⟩ := generateChars_ok_inv len e cs hc
    exact ⟨hlen, hall⟩

/-- Sufficient entropy makes generation succeed. -/
theorem generateChars_ok_of_le :
    ∀ (len : Nat) (e : Entropy), len ≤ e.length →
      ∃ cs, generateChars len e = Except.ok cs := by
  intro len
  induction len with
  | zero => intro e _; exact ⟨[], rfl⟩
  | succ k ih =>
    intro e h
    cases e with
    | nil => simp at h
    | cons n rest =>
      obtain ⟨cs, hcs⟩ := ih rest (by simpa using Nat.le_of_succ_le_succ h)
      exact ⟨pickRune n :: cs, by simp [generateChars, hcs]⟩

/-- Sufficient entropy makes the token generator succeed. -/
theorem generateSecret_ok_of_le (len : Nat) (e : Entropy) (h : len ≤ e.length) :
    ∃ pw, generateSecret len e = Except.ok pw := by
  obtain ⟨cs, hcs⟩ := generateChars_ok_of_le len e h
  exact ⟨String.mk cs, by simp [generateSecret, hcs]⟩

/-- The 62-symbol alphabet has no duplicate symbols. -/
theorem runes_nodup : runes.Nodup := by decide

/-- On in-range draws the draw-to-symbol map is injective: together with
`runes_nodup` this is the deterministic residue of bias-free selection —
each alphabet symbol is hit by exactly one of the 62 possible draw values. -/
theorem pickRune_inj (m n : Nat) (hm : m < runes.length) (hn : n < runes.length)
    (h : pickRune m = pickRune n) : m = n := by
  unfold pickRune at h
  have := (List.Nodup.get_inj_iff runes_nodup).mp h
  have hmn : m % runes.length = n % runes.length := congrArg Fin.val this
  rw [Nat.mod_eq_of_lt hm, Nat.mod_eq_of_lt hn] at hmn
  exact hmn

/-! Lookup structure of the updated snapshot. -/

/-- The updated snapshot carries the fresh generated-at stamp. -/
theorem updated_genAt (now val pw : String) (s : Secret) :
    lookupA (updatedSecret now val pw s).anns SecretGeneratedAtAnno = some now := by
  simp [updatedSecret, lookupA_insertA_self]

/-- The updated snapshot has no regenerate marker left. -/
theorem updated_regen_absent (now val pw : String) (s : Secret) :
    lookupA (updatedSecret now val pw s).anns SecretRegenerateAnno = none := by
  simp only [updatedSecret]
  rw [lookupA_insertA_ne _ _ _ _ (Ne.symm genAt_ne_regen)]
  exact lookupA_condErase_self s.anns SecretRegenerateAnno

/-- The updated snapshot keeps its generate-target key untouched. -/
theorem updated_gen_preserved (now val pw : String) (s : Secret) :
    lookupA (updatedSecret now val pw s).anns SecretGenerateAnno =
      lookupA s.anns SecretGenerateAnno := by
  simp only [updatedSecret]
  rw [lookupA_insertA_ne _ _ _ _ gen_ne_genAt]
  exact lookupA_condErase_ne s.anns SecretRegenerateAnno SecretGenerateAnno gen_ne_regen

/-- Every key other than the three control keys keeps its lookup. -/
theorem updated_anns_frame (now val pw : String) (s : Secret) (k : String)
    (_h1 : k ≠ SecretGenerateAnno) (h2 : k ≠ SecretGeneratedAtAnno)
    (h3 : k ≠ SecretRegenerateAnno) :
    lookupA (updatedSecret now val pw s).anns k = lookupA s.anns k := by
  simp only [updatedSecret]
  rw [lookupA_insertA_ne _ _ _ _ h2]
  exact lookupA_condErase_ne s.anns SecretRegenerateAnno k h3

/-- The target data key holds the fresh token. -/
theorem updated_data_self (now val pw : String) (s : Secret) :
    lookupA (updatedSecret now val pw s).data val = some pw := by
  simp [updatedSecret, lookupA_insertA_self]

/-- Every data key other than the target keeps its lookup. -/
theorem updated_data_frame (now val pw : String) (s : Secret) (k : String)
    (h : k ≠ val) :
    lookupA (updatedSecret now val pw s).data k = lookupA s.data k := by
  simp only [updatedSecret]
  exact lookupA_insertA_ne s.data val pw k h

/-! Characterization of one reconciliation pass. -/

/-- A record whose metadata lacks the generate-target key is left alone. -/
theorem secretAdded_no_target (L : Nat) (now : String) (e : Entropy) (s : Secret)
    (h : lookupA s.anns SecretGenerateAnno = none) :
    SecretAdded L now e s = ReconcileOutcome.noop := by
  simp [SecretAdded, h]

/-- A settled record (target present, generated-at present, no regenerate
marker) is left alone. -/
theorem secretAdded_settled (L : Nat) (now : String) (e : Entropy) (s : Secret)
    (hT : (lookupA s.anns SecretGenerateAnno).isSome = true)
    (hG : (lookupA s.anns SecretGeneratedAtAnno).isSome = true)
    (hR : lookupA s.anns SecretRegenerateAnno = none) :
    SecretAdded L now e s = ReconcileOutcome.noop := by
  obtain ⟨val, hval⟩ := Option.isSome_iff_exists.mp hT
  obtain ⟨w, hw⟩ := Option.isSome_iff_exists.mp hG
  simp [SecretAdded, hval, hw, hR]

/-- When the target key is present, regeneration is due and the generator
succeeds, the pass submits exactly the updated snapshot. -/
theorem secretAdded_write (L : Nat) (now : String) (e : Entropy) (s : Secret)
    (val pw : String)
    (hval : lookupA s.anns SecretGenerateAnno = some val)
    (hneed : ((lookupA s.anns SecretGeneratedAtAnno).isNone
        || (lookupA s.anns SecretRegenerateAnno).isSome) = true)
    (hgen : generateSecret L e = Except.ok pw) :
    SecretAdded L now e s = ReconcileOutcome.writeAttempt (updatedSecret now val pw s) := by
  simp [SecretAdded, hval, hneed, hgen, copyObjToSecret]

/-- Inversion: a submitted snapshot always is the updated snapshot for the
target value and a successfully generated token. -/
theorem secretAdded_write_inv (L : Nat) (now : String) (e : Entropy) (s t : Secret)
    (h : SecretAdded L now e s = ReconcileOutcome.writeAttempt t) :
    ∃ val pw, lookupA s.anns SecretGenerateAnno = some val ∧
      generateSecret L e = Except.ok pw ∧ t = updatedSecret now val pw s := by
  unfold SecretAdded at h
  split at h
  · exact ReconcileOutcome.noConfusion h
  · rename_i val hv
    split at h
    · split at h
      · exact ReconcileOutcome.noConfusion h
      · rename_i pw hg
        cases h
        exact ⟨val, pw, hv, hg, rfl⟩
    · exact ReconcileOutcome.noConfusion h

/-- Inversion: a submitted snapshot only happens when regeneration was due. -/
theorem secretAdded_write_need (L : Nat) (now : String) (e : Entropy) (s t : Secret)
    (h : SecretAdded L now e s = ReconcileOutcome.writeAttempt t) :
    ((lookupA s.anns SecretGeneratedAtAnno).isNone
      || (lookupA s.anns SecretRegenerateAnno).isSome) = true := by
  unfold SecretAdded at h
  split at h
  · exact ReconcileOutcome.noConfusion h
  · split at h
    · rename_i hc
      exact hc
    · exact ReconcileOutcome.noConfusion h

/-- A generation failure never reaches the write. -/
theorem secretAdded_genFail (L : Nat) (now : String) (e : Entropy) (s : Secret)
    (msg : String) (hgen : generateSecret L e = Except.error msg) :
    outSecret (SecretAdded L now e s) = none := by
  cases h : SecretAdded L now e s with
  | noop => simp [outSecret]
  | genFailed => simp [outSecret]
  | writeAttempt t =>
    obtain ⟨val, pw, _, hok, _⟩ := secretAdded_write_inv L now e s t h
    rw [hgen] at hok
    cases hok

/-! Claim theorems. -/

/-- C1: a record whose metadata holds the generate-target and generated-at
keys and lacks the regenerate key is settled: reconciliation is a no-op for
every configured length, timestamp and entropy stream (hence for arbitrarily
many repeated invocations on the same snapshot), and the stored record is
never written. -/
theorem c1_settled_noop (L : Nat) (now : String) (e : Entropy) (writeOk : Bool)
    (store s : Secret)
    (hT : (lookupA s.anns SecretGenerateAnno).isSome = true)
    (hG : (lookupA s.anns SecretGeneratedAtAnno).isSome = true)
    (hR : lookupA s.anns SecretRegenerateAnno = none) :
    SecretAdded L now e s = ReconcileOutcome.noop ∧
    processEvent L now e writeOk store s = store := by
  have h := secretAdded_settled L now e s hT hG hR
  exact ⟨h, by simp [processEvent, h]⟩

/-- Concrete settled record for the C1 witness. -/
def witSettled : Secret :=
  { name := "n", ns := "d", resourceVersion := "1",
    anns := [(SecretGenerateAnno, "k"), (SecretGeneratedAtAnno, "t")],
    data := [("k", "v")] }

/-- C1 witness: the settled record is recognized and left alone. -/
theorem c1_settled_noop_wit :
    (lookupA witSettled.anns SecretGenerateAnno).isSome = true ∧
    (lookupA witSettled.anns SecretGeneratedAtAnno).isSome = true ∧
    lookupA witSettled.anns SecretRegenerateAnno = none ∧
    (SecretAdded 40 "x" [0] witSettled = ReconcileOutcome.noop ∧
      processEvent 40 "x" [0] true witSettled witSettled = witSettled) :=
  ⟨by decide, by decide, by decide,
    c1_settled_noop 40 "x" [0] true witSettled witSettled
      (by decide) (by decide) (by decide)⟩

/-- C2: any snapshot a reconciliation pass submits carries the generated-at
key and no regenerate key, so feeding it back into the engine — with any
length, timestamp or entropy — is immediately a no-op: the engine never
loops on its own write. -/
theorem c2_no_loop (L L2 : Nat) (now now2 : String) (e e2 : Entropy) (s t : Secret)
    (h : SecretAdded L now e s = ReconcileOutcome.writeAttempt t) :
    (lookupA t.anns SecretGeneratedAtAnno).isSome = true ∧
    lookupA t.anns SecretRegenerateAnno = none ∧
    SecretAdded L2 now2 e2 t = ReconcileOutcome.noop := by
  obtain ⟨val, pw, hval, hgen, ht⟩ := secretAdded_write_inv L now e s t h
  subst ht
  refine ⟨?_, updated_regen_absent now val pw s, ?_⟩
  · rw [updated_genAt]; rfl
  · apply secretAdded_settled
    · rw [updated_gen_preserved, hval]; rfl
    · rw [updated_genAt]; rfl
    · exact updated_regen_absent now val pw s

/-- Concrete first-generation record for witnesses. -/
def witFresh : Secret :=
  { name := "n", ns := "d", resourceVersion := "1",
    anns := [(SecretGenerateAnno, "k")],
    data := [] }

/-- C2 witness: the output of a concrete first generation is settled. -/
theorem c2_no_loop_wit :
    SecretAdded 1 "T" [0] witFresh =
      ReconcileOutcome.writeAttempt (updatedSecret "T" "k" "a" witFresh) ∧
    ((lookupA (updatedSecret "T" "k" "a" witFresh).anns SecretGeneratedAtAnno).isSome = true ∧
      lookupA (updatedSecret "T" "k" "a" witFresh).anns SecretRegenerateAnno = none ∧
      SecretAdded 2 "U" [1, 2] (updatedSecret "T" "k" "a" witFresh) =
        ReconcileOutcome.noop) :=
  ⟨by decide,
    c2_no_loop 1 2 "T" "U" [0] [1, 2] witFresh (updatedSecret "T" "k" "a" witFresh)
      (by decide)⟩

/-- C3: a managed record without the generated-at key is regenerated by one
pass (given the generator succeeds on the supplied entropy): the submitted
snapshot carries the generated-at stamp and, under the data key named by the
generate-target value, a token of the configured length drawn from the
62-symbol alphabet. -/
theorem c3_first_generation (L : Nat) (now : String) (e : Entropy) (s : Secret)
    (val pw : String)
    (hT : lookupA s.anns SecretGenerateAnno = some val)
    (hG : lookupA s.anns SecretGeneratedAtAnno = none)
    (hgen : generateSecret L e = Except.ok pw) :
    SecretAdded L now e s = ReconcileOutcome.writeAttempt (updatedSecret now val pw s) ∧
    (lookupA (updatedSecret now val pw s).anns SecretGeneratedAtAnno).isSome = true ∧
    lookupA (updatedSecret now val pw s).data val = some pw ∧
    pw.length = L ∧ pw.data.all (fun c => decide (c ∈ runes)) = true := by
  obtain ⟨hlen, hall⟩ := generateSecret_ok_inv L e pw hgen
  refine ⟨?_, ?_, updated_data_self now val pw s, hlen, hall⟩
  · exact secretAdded_write L now e s val pw hT (by simp [hG]) hgen
  · rw [updated_genAt]; rfl

/-- C3 witness: a concrete two-character first generation. -/
theorem c3_first_generation_wit :
    lookupA witFresh.anns SecretGenerateAnno = some "k" ∧
    lookupA witFresh.anns SecretGeneratedAtAnno = none ∧
    generateSecret 2 [0, 1] = Except.ok "ab" ∧
    (SecretAdded 2 "T" [0, 1] witFresh =
        ReconcileOutcome.writeAttempt (updatedSecret "T" "k" "ab" witFresh) ∧
      (lookupA (updatedSecret "T" "k" "ab" witFresh).anns SecretGeneratedAtAnno).isSome = true ∧
      lookupA (updatedSecret "T" "k" "ab" witFresh).data "k" = some "ab" ∧
      String.length "ab" = 2 ∧
      ("ab".data.all fun c => decide (c ∈ runes)) = true) :=
  ⟨by decide, by decide, rfl,
    c3_first_generation 2 "T" [0, 1] witFresh "k" "ab" (by decide) (by decide) rfl⟩

/-- C7: a record whose metadata lacks the generate-target key is never
touched — reconciliation is a no-op and the stored record is never written,
whatever other keys (generated-at, regenerate, anything else) are present. -/
theorem c7_unmanaged_untouched (L : Nat) (now : String) (e : Entropy)
    (writeOk : Bool) (store s : Secret)
    (h : lookupA s.anns SecretGenerateAnno = none) :
    SecretAdded L now e s = ReconcileOutcome.noop ∧
    processEvent L now e writeOk store s = store := by
  have hn := secretAdded_no_target L now e s h
  exact ⟨hn, by simp [processEvent, hn]⟩

/-- Concrete unmanaged record carrying the other two control keys. -/
def witUnmanaged : Secret :=
  { name := "n", ns := "d", resourceVersion := "1",
    anns := [(SecretGeneratedAtAnno, "t"), (SecretRegenerateAnno, ""), ("x", "y")],
    data := [("k", "v")] }

/-- C7 witness: the unmanaged record is left alone. -/
theorem c7_unmanaged_untouched_wit :
    lookupA witUnmanaged.anns SecretGenerateAnno = none ∧
    (SecretAdded 40 "x" [0] witUnmanaged = ReconcileOutcome.noop ∧
      processEvent 40 "x" [0] true witUnmanaged witUnmanaged = witUnmanaged) :=
  ⟨by decide,
    c7_unmanaged_untouched 40 "x" [0] true witUnmanaged witUnmanaged (by decide)⟩

/-- Settled record with a pending regenerate marker whose prior target value
equals the token the entropy stream `[0, 0, 0]` generates. -/
def witCollide : Secret :=
  { name := "n", ns := "d", resourceVersion := "1",
    anns := [(SecretGenerateAnno, "k"), (SecretGeneratedAtAnno, "t"),
      (SecretRegenerateAnno, "")],
    data := [("k", "aaa")] }

/-- C4 counterexample: regeneration always overwrites the target entry with
the freshly generated token, but nothing in the code makes that token differ
from the prior value — here the generator draws `"aaa"` and the target entry
keeps the value `"aaa"` it already had, so the written value is not
"different from the prior value". -/
theorem c4_counterexample :
    lookupA witCollide.anns SecretGenerateAnno = some "k" ∧
    (lookupA witCollide.anns SecretGeneratedAtAnno).isSome = true ∧
    (lookupA witCollide.anns SecretRegenerateAnno).isSome = true ∧
    lookupA witCollide.data "k" = some "aaa" ∧
    generateSecret 3 [0, 0, 0] = Except.ok "aaa" ∧
    outSecret (SecretAdded 3 "t2" [0, 0, 0] witCollide) =
      some (updatedSecret "t2" "k" "aaa" witCollide) ∧
    lookupA (updatedSecret "t2" "k" "aaa" witCollide).data "k" = some "aaa" :=
  ⟨by decide, by decide, by decide, by decide, rfl, by decide, by decide⟩

/-- C4 (amended): one pass on a settled record carrying the regenerate
marker removes the marker and overwrites the target entry with the freshly
generated token; the new value differs from the prior one exactly when the
generated token does (which, for the real entropy source, fails only with
negligible probability). -/
theorem c4_regen_overwrites (L : Nat) (now : String) (e : Entropy) (s : Secret)
    (val pw old : String)
    (hT : lookupA s.anns SecretGenerateAnno = some val)
    (_hG : (lookupA s.anns SecretGeneratedAtAnno).isSome = true)
    (hR : (lookupA s.anns SecretRegenerateAnno).isSome = true)
    (hgen : generateSecret L e = Except.ok pw)
    (_hold : lookupA s.data val = some old) :
    SecretAdded L now e s = ReconcileOutcome.writeAttempt (updatedSecret now val pw s) ∧
    lookupA (updatedSecret now val pw s).anns SecretRegenerateAnno = none ∧
    lookupA (updatedSecret now val pw s).data val = some pw ∧
    (pw ≠ old → lookupA (updatedSecret now val pw s).data val ≠ some old) := by
  refine ⟨secretAdded_write L now e s val pw hT (by simp [hR]) hgen,
    updated_regen_absent now val pw s, updated_data_self now val pw s, ?_⟩
  intro hne
  rw [updated_data_self]
  intro hc
  exact hne (Option.some.inj hc)

/-- Settled record with a pending regenerate marker and prior value distinct
from the token the entropy stream generates. -/
def witRegen : Secret :=
  { name := "n", ns := "d", resourceVersion := "1",
    anns := [(SecretGenerateAnno, "k"), (SecretGeneratedAtAnno, "t"),
      (SecretRegenerateAnno, "please")],
    data := [("k", "zzz")] }

/-- C4 witness: a concrete regeneration clears the marker and replaces the
prior value with the (here different) fresh token. -/
theorem c4_regen_overwrites_wit :
    lookupA witRegen.anns SecretGenerateAnno = some "k" ∧
    (lookupA witRegen.anns SecretGeneratedAtAnno).isSome = true ∧
    (lookupA witRegen.anns SecretRegenerateAnno).isSome = true ∧
    generateSecret 3 [0, 0, 0] = Except.ok "aaa" ∧
    lookupA witRegen.data "k" = some "zzz" ∧
    (SecretAdded 3 "t2" [0, 0, 0] witRegen =
        ReconcileOutcome.writeAttempt (updatedSecret "t2" "k" "aaa" witRegen) ∧
      lookupA (updatedSecret "t2" "k" "aaa" witRegen).anns SecretRegenerateAnno = none ∧
      lookupA (updatedSecret "t2" "k" "aaa" witRegen).data "k" = some "aaa" ∧
      ("aaa" ≠ "zzz" →
        lookupA (updatedSecret "t2" "k" "aaa" witRegen).data "k" ≠ some "zzz")) :=
  ⟨by decide, by decide, by decide, rfl, by decide,
    c4_regen_overwrites 3 "t2" [0, 0, 0] witRegen "k" "aaa" "zzz"
      (by decide) (by decide) (by decide) rfl (by decide)⟩

/-- C5: the spec's end-to-end scenario. From a record whose metadata is
exactly the generate-target key valued `"token"` and whose data is empty,
one pass with the default length 40 submits a snapshot whose metadata is
exactly the generate-target key plus a non-empty generated-at stamp, and
whose data maps `"token"` to a 40-character token over the 62-symbol
alphabet. -/
theorem c5_scenario (nm nsv rv now : String) (e : Entropy) (pw : String)
    (hnow : now ≠ "")
    (hgen : generateSecret 40 e = Except.ok pw) :
    SecretAdded 40 now e
        { name := nm, ns := nsv, resourceVersion := rv,
          anns := [(SecretGenerateAnno, "token")], data := [] } =
      ReconcileOutcome.writeAttempt
        { name := nm, ns := nsv, resourceVersion := rv,
          anns := [(SecretGenerateAnno, "token"), (SecretGeneratedAtAnno, now)],
          data := [("token", pw)] } ∧
    now ≠ "" ∧ pw.length = 40 ∧ pw.data.all (fun c => decide (c ∈ runes)) = true := by
  obtain ⟨hlen, hall⟩ := generateSecret_ok_inv 40 e pw hgen
  refine ⟨?_, hnow, hlen, hall⟩
  have hw := secretAdded_write 40 now e
      { name := nm, ns := nsv, resourceVersion := rv,
        anns := [(SecretGenerateAnno, "token")], data := [] }
      "token" pw (by simp [lookupA]) (by simp [lookupA, gen_ne_genAt]) hgen
  rw [hw]
  simp [updatedSecret, condErase, lookupA, insertA, gen_ne_regen, gen_ne_genAt]

/-- C5 witness: the scenario run on a concrete 40-draw entropy stream. -/
theorem c5_scenario_wit :
    ("t" : String) ≠ "" ∧
    generateSecret 40 (List.replicate 40 0) =
      Except.ok (String.mk (List.replicate 40 'a')) ∧
    (SecretAdded 40 "t" (List.replicate 40 0)
        { name := "n", ns := "d", resourceVersion := "1",
          anns := [(SecretGenerateAnno, "token")], data := [] } =
      ReconcileOutcome.writeAttempt
        { name := "n", ns := "d", resourceVersion := "1",
          anns := [(SecretGenerateAnno, "token"), (SecretGeneratedAtAnno, "t")],
          data := [("token", String.mk (List.replicate 40 'a'))] } ∧
      ("t" : String) ≠ "" ∧ (String.mk (List.replicate 40 'a')).length = 40 ∧
      ((String.mk (List.replicate 40 'a')).data.all fun c => decide (c ∈ runes)) = true) :=
  ⟨by decide, rfl,
    c5_scenario "n" "d" "1" "t" (List.replicate 40 0)
      (String.mk (List.replicate 40 'a')) (by decide) rfl⟩

/-- C6: a submitted snapshot changes nothing outside the three control keys
and the single target data entry: identity, version token, every other
metadata key and every other data key keep exactly their input lookups (so
no data key other than the target is added or removed). -/
theorem c6_frame (L : Nat) (now : String) (e : Entropy) (s t : Secret)
    (val k kd : String)
    (h : SecretAdded L now e s = ReconcileOutcome.writeAttempt t)
    (hval : lookupA s.anns SecretGenerateAnno = some val)
    (hk1 : k ≠ SecretGenerateAnno) (hk2 : k ≠ SecretGeneratedAtAnno)
    (hk3 : k ≠ SecretRegenerateAnno) (hkd : kd ≠ val) :
    t.name = s.name ∧ t.ns = s.ns ∧ t.resourceVersion = s.resourceVersion ∧
    lookupA t.anns k = lookupA s.anns k ∧
    lookupA t.data kd = lookupA s.data kd := by
  obtain ⟨val2, pw, hval2, hgen, ht⟩ := secretAdded_write_inv L now e s t h
  rw [hval] at hval2
  obtain rfl : val = val2 := Option.some.inj hval2
  subst ht
  exact ⟨rfl, rfl, rfl,
    updated_anns_frame now val pw s k hk1 hk2 hk3,
    updated_data_frame now val pw s kd hkd⟩

/-- First-generation record carrying an unrelated metadata key and an
unrelated data entry, to exercise the frame condition. -/
def witFramed : Secret :=
  { name := "n", ns := "d", resourceVersion := "7",
    anns := [(SecretGenerateAnno, "k"), ("other", "x")],
    data := [("k", "old"), ("z", "zz")] }

/-- C6 witness: a concrete pass preserves the unrelated metadata key
`"other"` and the unrelated data key `"z"`. -/
theorem c6_frame_wit :
    SecretAdded 1 "T" [0] witFramed =
      ReconcileOutcome.writeAttempt (updatedSecret "T" "k" "a" witFramed) ∧
    lookupA witFramed.anns SecretGenerateAnno = some "k" ∧
    ((updatedSecret "T" "k" "a" witFramed).name = witFramed.name ∧
      (updatedSecret "T" "k" "a" witFramed).ns = witFramed.ns ∧
      (updatedSecret "T" "k" "a" witFramed).resourceVersion = witFramed.resourceVersion ∧
      lookupA (updatedSecret "T" "k" "a" witFramed).anns "other" =
        lookupA witFramed.anns "other" ∧
      lookupA (updatedSecret "T" "k" "a" witFramed).data "z" =
        lookupA witFramed.data "z") :=
  ⟨by decide, by decide,
    c6_frame 1 "T" [0] witFramed (updatedSecret "T" "k" "a" witFramed) "k" "other" "z"
      (by decide) (by decide) (by decide) (by decide) (by decide) (by decide)⟩

/-- C8: when token generation fails or the conditional store write fails,
the pass leaves the stored record exactly as it was, and a generation
failure never even submits a snapshot; the handler is a total function, so
no error escapes it, and one delivered event drives at most one attempt. -/
theorem c8_failure_leaves_store (L : Nat) (now : String) (e : Entropy)
    (writeOk : Bool) (store s : Secret) (msg : String)
    (h : generateSecret L e = Except.error msg ∨ writeOk = false) :
    processEvent L now e writeOk store s = store ∧
    (generateSecret L e = Except.error msg →
      outSecret (SecretAdded L now e s) = none) := by
  constructor
  · cases hsa : SecretAdded L now e s with
    | noop => simp [processEvent, hsa]
    | genFailed => simp [processEvent, hsa]
    | writeAttempt t =>
      cases h with
      | inl hg =>
        have hn := secretAdded_genFail L now e s msg hg
        rw [hsa] at hn
        simp [outSecret] at hn
      | inr hw => simp [processEvent, hsa, hw]
  · intro hg
    exact secretAdded_genFail L now e s msg hg

/-- C8 witness: an exhausted entropy stream on a record that needs a first
generation aborts with no write, and the stored record survives. -/
theorem c8_failure_leaves_store_wit :
    (generateSecret 1 [] = Except.error "entropy source exhausted" ∨
      (true : Bool) = false) ∧
    (processEvent 1 "x" [] true witSettled witFresh = witSettled ∧
      (generateSecret 1 [] = Except.error "entropy source exhausted" →
        outSecret (SecretAdded 1 "x" [] witFresh) = none)) :=
  ⟨Or.inl rfl,
    c8_failure_leaves_store 1 "x" [] true witSettled witFresh
      "entropy source exhausted" (Or.inl rfl)⟩

/-- C10: the reconciliation decision reads only the presence of the three
control keys, never their values: a regenerate key with any value (the
empty string included) triggers regeneration, a generated-at key with any
value counts as settled, and an empty-string generate-target value still
marks the record managed, with the token written under the empty-string
data key. -/
theorem c10_presence_only :
    (∀ (L : Nat) (now v val : String) (e : Entropy) (s : Secret) (pw : String),
      lookupA s.anns SecretGenerateAnno = some val →
      lookupA s.anns SecretRegenerateAnno = some v →
      generateSecret L e = Except.ok pw →
      SecretAdded L now e s =
        ReconcileOutcome.writeAttempt (updatedSecret now val pw s)) ∧
    (∀ (L : Nat) (now w val : String) (e : Entropy) (s : Secret),
      lookupA s.anns SecretGenerateAnno = some val →
      lookupA s.anns SecretGeneratedAtAnno = some w →
      lookupA s.anns SecretRegenerateAnno = none →
      SecretAdded L now e s = ReconcileOutcome.noop) ∧
    (∀ (L : Nat) (now : String) (e : Entropy) (s : Secret) (pw : String),
      lookupA s.anns SecretGenerateAnno = some "" →
      lookupA s.anns SecretGeneratedAtAnno = none →
      generateSecret L e = Except.ok pw →
      SecretAdded L now e s =
          ReconcileOutcome.writeAttempt (updatedSecret now "" pw s) ∧
        lookupA (updatedSecret now "" pw s).data "" = some pw) := by
  refine ⟨?_, ?_, ?_⟩
  · intro L now v val e s pw hT hR hgen
    exact secretAdded_write L now e s val pw hT (by simp [hR]) hgen
  · intro L now w val e s hT hG hR
    exact secretAdded_settled L now e s (by simp [hT]) (by simp [hG]) hR
  · intro L now e s pw hT hG hgen
    exact ⟨secretAdded_write L now e s "" pw hT (by simp [hG]) hgen,
      updated_data_self now "" pw s⟩

/-- Settled record whose generated-at value is the empty string. -/
def witEmptyStamp : Secret :=
  { name := "n", ns := "d", resourceVersion := "1",
    anns := [(SecretGenerateAnno, "k"), (SecretGeneratedAtAnno, "")],
    data := [("k", "v")] }

/-- Managed record whose generate-target value is the empty string. -/
def witEmptyTarget : Secret :=
  { name := "n", ns := "d", resourceVersion := "1",
    anns := [(SecretGenerateAnno, "")],
    data := [] }

/-- C10 witness: an empty-valued regenerate key triggers a write, an
empty-valued generated-at key settles, and an empty generate-target value
routes the token to the empty-string data key. -/
theorem c10_presence_only_wit :
    (SecretAdded 3 "t2" [0, 0, 0] witCollide =
      ReconcileOutcome.writeAttempt (updatedSecret "t2" "k" "aaa" witCollide)) ∧
    SecretAdded 1 "T" [0] witEmptyStamp = ReconcileOutcome.noop ∧
    (SecretAdded 1 "T" [0] witEmptyTarget =
        ReconcileOutcome.writeAttempt (updatedSecret "T" "" "a" witEmptyTarget) ∧
      lookupA (updatedSecret "T" "" "a" witEmptyTarget).data "" = some "a") :=
  ⟨c10_presence_only.1 3 "t2" "" "k" [0, 0, 0] witCollide "aaa"
      (by decide) (by decide) rfl,
    c10_presence_only.2.1 1 "T" "" "k" [0] witEmptyStamp
      (by decide) (by decide) (by decide),
    c10_presence_only.2.2 1 "T" [0] witEmptyTarget "a" (by decide) (by decide) rfl⟩

end KSGen
